import Mathlib

/-
Shallow embedding of the cluster-cache repository (src/ClusterCache.ts,
src/ClusterCacheClient.ts, src/types.ts).

Modelling conventions:
- The LRU cache store is modelled as an association list from composite keys to
  values; the most recently set entry is at the head and shadows older entries
  on lookup, matching the observable get/set/delete/forEach contract the code
  relies on (TTL and eviction belong to the external store and are out of
  scope of the claims).
- JavaScript strings are Lean String; undefined optional fields are Option.
- The wire value of the operation field is a String, since requests arrive
  over IPC untyped at runtime and the dispatcher matches on string values.
- Thrown JavaScript errors are modelled as Except.error carrying the message;
  a promise rejection is modelled as the rejection message value.
- Mutation of static or per-instance fields is modelled by explicit state
  passing: each function returns the updated state next to its result.
-/

/-- Boolean test that the string s starts with the string pre, the semantics
of the JavaScript startsWith used by the coordinator code. -/
def strStartsWith (s pre : String) : Bool :=
  List.isPrefixOf pre.data s.data

/-- Association-list model of the LRU cache store keyed by composite keys. -/
abbrev Store (α : Type) : Type := List (String × α)

/-- Lookup in the store: first entry whose key matches, as the current value. -/
def storeGet {α : Type} (store : Store α) (k : String) : Option α :=
  (List.find? (fun e => e.1 == k) store).map (fun e => e.2)

/-- Writing to the store: the fresh entry shadows any older entry for the key. -/
def storeSet {α : Type} (store : Store α) (k : String) (v : α) : Store α :=
  (k, v) :: store

/-- Deletion removes every entry carried under the key. -/
def storeDelete {α : Type} (store : Store α) (k : String) : Store α :=
  List.filter (fun e => !(e.1 == k)) store

/-- Request options carried to the store on get and set calls, with the shape
of the configured client defaults (ClusterCacheClient.ts, requestOptions). -/
structure RequestOptions where
  allowStale : Bool
  ttl : Nat
  updateAgeOnGet : Bool
  size : Option Nat := none
  deriving DecidableEq

/-- Caller-supplied per-operation overrides (types.ts, GetOverrides and
SetOverrides): every field may be absent, as lodash merge skips undefined
source fields. -/
structure Overrides where
  allowStale : Option Bool := none
  ttl : Option Nat := none
  updateAgeOnGet : Option Bool := none
  size : Option Nat := none
  deriving DecidableEq

/-- Arguments of a cache operation as carried in a Request (types.ts,
CacheFnArguments). The namespace field is called ns because namespace is a
reserved word in Lean. -/
structure CacheFnArguments (α : Type) where
  key : Option String := none
  ns : String
  options : Option RequestOptions := none
  value : Option α := none
  deriving DecidableEq

/-- Wire shape of a Request (types.ts). The operation travels as a string. -/
structure Request (α : Type) where
  args : CacheFnArguments α
  clientId : String
  operation : String
  requestId : String
  sourceId : String
  deriving DecidableEq

/-- Result payload of a cache method: the literal OK acknowledgment string, or
the value (possibly a miss) produced by get. -/
inductive CacheData (α : Type) where
  | ack (msg : String)
  | val (v : Option α)
  deriving DecidableEq

/-- Wire shape of a Reply (types.ts). -/
structure Reply (α : Type) where
  clientId : String
  data : Option (CacheData α) := none
  error : Option String := none
  requestId : String
  sourceId : String
  deriving DecidableEq

namespace ClusterCache

/-- Namespaces a cache key (ClusterCache.ts, applyNamespace); the key
parameter defaults to the empty string in the source. -/
def applyNamespace (ns : String) (key : String) : String :=
  ns ++ ":" ++ key

/-- Clears all keys belonging to a namespace (ClusterCache.ts, clear): the
forEach loop deletes every entry whose composite key starts with the
namespace prefix, then returns OK. -/
def clear {α : Type} (args : CacheFnArguments α) (store : Store α) :
    Store α × String :=
  (List.filter (fun e => !(strStartsWith e.1 (applyNamespace args.ns ""))) store,
   "OK")

/-- Deletes a namespaced key from the cache (ClusterCache.ts, delete). -/
def delete {α : Type} (args : CacheFnArguments α) (store : Store α) :
    Store α × String :=
  (storeDelete store (applyNamespace args.ns (args.key.getD "")), "OK")

/-- Retrieves the value cached at a namespaced key (ClusterCache.ts, get).
The per-call options only drive staleness bookkeeping inside the external
store and do not change which entry is addressed. -/
def get {α : Type} (args : CacheFnArguments α) (store : Store α) : Option α :=
  storeGet store (applyNamespace args.ns (args.key.getD ""))

/-- Caches a value at a namespaced key (ClusterCache.ts, set). When the value
field is absent the external lru-cache treats set as a deletion of the key. -/
def set {α : Type} (args : CacheFnArguments α) (store : Store α) :
    Store α × String :=
  match args.value with
  | some v => (storeSet store (applyNamespace args.ns (args.key.getD "")) v, "OK")
  | none => (storeDelete store (applyNamespace args.ns (args.key.getD "")), "OK")

/-- Maps operations to cache methods (ClusterCache.ts, getCacheFn); an
unrecognized operation throws a TypeError, modelled as Except.error with a
lightly shortened form of the source message text, which additionally quotes
the operation name. Each returned method is wrapped to report its result or
a thrown error. -/
def getCacheFn (α : Type) [DecidableEq α] (operation : String) :
    Except String (CacheFnArguments α → Store α → Except String (CacheData α × Store α)) :=
  if operation = "clear" then
    .ok (fun args store => let r := clear args store; .ok (.ack r.2, r.1))
  else if operation = "delete" then
    .ok (fun args store => let r := delete args store; .ok (.ack r.2, r.1))
  else if operation = "get" then
    .ok (fun args store => .ok (.val (get args store), store))
  else if operation = "set" then
    .ok (fun args store => let r := set args store; .ok (.ack r.2, r.1))
  else
    .error (operation ++ " is not a recognized cluster cache operation.")

/-- Outcome of handling one inbound request: either a Reply was sent to the
originating worker, or an exception escaped the dispatch boundary and no
Reply was sent. -/
inductive DispatchOutcome (α : Type) where
  | replied (r : Reply α)
  | threw (msg : String)
  deriving DecidableEq

/-- Dispatch of one inbound Request (ClusterCache.ts, handleRequest). The
operation is resolved through getCacheFn BEFORE the try block, exactly as in
the source; only exceptions thrown while executing the chosen cache method
are caught and turned into an error Reply. -/
def handleRequest {α : Type} [DecidableEq α] (store : Store α) (request : Request α) :
    DispatchOutcome α × Store α :=
  match getCacheFn α request.operation with
  | .error msg => (.threw msg, store)
  | .ok cacheFn =>
    match cacheFn request.args store with
    | .ok (data, store') =>
      (.replied { clientId := request.clientId, data := some data,
                  requestId := request.requestId, sourceId := request.sourceId },
       store')
    | .error e =>
      (.replied { clientId := request.clientId, error := some e,
                  requestId := request.requestId, sourceId := request.sourceId },
       store)

/-- Configuration handed to the LRU store constructor (external contract). -/
structure LRUOptions where
  max : Option Nat := none
  maxSize : Option Nat := none
  ttl : Option Nat := none
  deriving DecidableEq

/-- State owned by a constructed coordinator: its retained options and the
cache store. -/
structure CoordinatorState (α : Type) where
  options : LRUOptions
  cache : Store α
  deriving DecidableEq

/-- Constructor of the coordinator (ClusterCache.ts, constructor). The static
singleton slot is passed in and returned explicitly. The instance check comes
first; the role check comes next and throws on a non-primary process; only
then is fresh state created and stored in the singleton slot. -/
def clusterCacheCtor {α : Type} (instanceSlot : Option (CoordinatorState α))
    (isPrimary : Bool) (options : LRUOptions) :
    Except String (CoordinatorState α) × Option (CoordinatorState α) :=
  match instanceSlot with
  | some existing => (.ok existing, some existing)
  | none =>
    if isPrimary then
      let st : CoordinatorState α := { options := options, cache := [] }
      (.ok st, some st)
    else
      (.error "A shared cache may only be initialized on the primary process.", none)

end ClusterCache

namespace ClusterCacheClient

/-- Deep merge of overrides into a target options object, the behavior of
lodash merge on these flat option records: defined source fields overwrite
the target field, absent ones leave it alone. The caller is responsible for
threading the returned record back into the mutated target, since lodash
merge updates its first argument in place. -/
def mergeOptions (target : RequestOptions) (o : Overrides) : RequestOptions :=
  { allowStale := o.allowStale.getD target.allowStale,
    ttl := o.ttl.getD target.ttl,
    updateAgeOnGet := o.updateAgeOnGet.getD target.updateAgeOnGet,
    size := match o.size with | some n => some n | none => target.size }

/-- Client configuration record (ClusterCacheClient.ts, defaultConfig shape).
The logger is modelled by the warned flag returned by the functions below;
the namespace field is called ns because namespace is a reserved word. -/
structure ClientConfig where
  allowOverrides : Bool
  ns : String
  requestTimeout : Nat
  requestOptions : RequestOptions
  updateAgeOnGet : Bool
  deriving DecidableEq

/-- Partial configuration accepted by the client constructor; absent fields
fall back to the current static defaults under lodash merge. -/
structure ConfigOverrides where
  allowOverrides : Option Bool := none
  ns : Option String := none
  requestTimeout : Option Nat := none
  requestOptions : Overrides := {}
  updateAgeOnGet : Option Bool := none
  deriving DecidableEq

/-- Deep merge of a partial configuration into a target configuration, the
lodash merge behavior used by the client constructor. -/
def mergeConfig (target : ClientConfig) (c : ConfigOverrides) : ClientConfig :=
  { allowOverrides := c.allowOverrides.getD target.allowOverrides,
    ns := c.ns.getD target.ns,
    requestTimeout := c.requestTimeout.getD target.requestTimeout,
    requestOptions := mergeOptions target.requestOptions c.requestOptions,
    updateAgeOnGet := c.updateAgeOnGet.getD target.updateAgeOnGet }

/-- Documented initial value of the class-level static defaultConfig
(ClusterCacheClient.ts, lines 9 to 20). -/
def initialDefaultConfig : ClientConfig :=
  { allowOverrides := false,
    ns := "",
    requestTimeout := 300,
    requestOptions := { allowStale := false, ttl := 300000, updateAgeOnGet := true },
    updateAgeOnGet := true }

/-- Class-level static state of ClusterCacheClient: the mutable defaultConfig
object shared by all constructions in the process. -/
structure ClientStatic where
  defaultConfig : ClientConfig
  deriving DecidableEq

/-- Per-instance state created by the client constructor. -/
structure ClientState where
  clientId : String
  config : ClientConfig
  ns : String
  deriving DecidableEq

/-- Client constructor (ClusterCacheClient.ts, constructor). On the primary
process it throws before touching any state. Otherwise it computes
merge(defaultConfig, config): lodash merge mutates the static defaultConfig
in place and this.config aliases that same object, so the returned static
state carries the merged record. The namespace falls back to the generated
client id when the merged namespace is the empty string, matching the
JavaScript truthiness test. The process-unique generated id is passed in as
clientId. The role-violation message is a lightly shortened form of the
source text, which reads: may not be initialized in the primary process of
the cluster. -/
def clientCtor (staticState : ClientStatic) (isPrimary : Bool) (clientId : String)
    (config : ConfigOverrides) : Except String ClientState × ClientStatic :=
  if isPrimary then
    (.error "Cluster cache client may not be initialized in the primary process.",
     staticState)
  else
    let merged := mergeConfig staticState.defaultConfig config
    (.ok { clientId := clientId,
           config := merged,
           ns := if merged.ns = "" then clientId else merged.ns },
     { defaultConfig := merged })

/-- Adds override options if provided and permitted (ClusterCacheClient.ts,
addRequestOptions). Returns the args to send, the client configuration after
the call (lodash merge mutates config.requestOptions in place), and whether
the rejected-overrides warning was logged. When overrides are supplied and
not allowed, the args are returned unchanged; otherwise the merged options
are attached to the args. -/
def addRequestOptions {α : Type} (config : ClientConfig) (args : CacheFnArguments α)
    (overrides : Option Overrides) : CacheFnArguments α × ClientConfig × Bool :=
  match overrides with
  | some o =>
    if !config.allowOverrides then
      (args, config, true)
    else
      let merged := mergeOptions config.requestOptions o
      ({ args with options := some merged },
       { config with requestOptions := merged }, false)
  | none =>
    let merged := mergeOptions config.requestOptions {}
    ({ args with options := some merged },
     { config with requestOptions := merged }, false)

/-- Registration step of the request method (ClusterCacheClient.ts, request):
a resolver callback is stored in the pending-request registry under the fresh
correlation id. The registry is modelled by the list of registered ids. -/
def registerPending (pending : List String) (requestId : String) : List String :=
  requestId :: pending

/-- Body of the failsafe timeout callback (ClusterCacheClient.ts, request,
lines 128 to 134): it rejects the promise with the timeout error message and
performs no other action, so the pending registry it returns is the one it
was given. -/
def failsafeTimeout (pending : List String) (operation requestId clientId : String) :
    List String × String :=
  (pending,
   "Cluster cache " ++ operation ++ " request timed out: request ID " ++ requestId
     ++ ", client ID " ++ clientId ++ ".")

/-- Reply handler (ClusterCacheClient.ts, handleReply): when the source and
client ids match and the correlation id is registered, the stored callback is
invoked (true in the returned pair) and the entry is deleted; otherwise the
reply is ignored. -/
def handleReply {α : Type} (selfSourceId selfClientId : String)
    (pending : List String) (reply : Reply α) : List String × Bool :=
  if reply.sourceId = selfSourceId ∧ reply.clientId = selfClientId
      ∧ pending.contains reply.requestId then
    (List.filter (fun id => !(id == reply.requestId)) pending, true)
  else
    (pending, false)

end ClusterCacheClient

/-- Helper: the namespace codec maps different namespaces with the same key to
different composite keys, by cancelling the common suffix. -/
theorem applyNamespace_ne_of_ne (n1 n2 k : String) (h : n1 ≠ n2) :
    ClusterCache.applyNamespace n1 k ≠ ClusterCache.applyNamespace n2 k := by
  intro heq
  have hd := congrArg String.data heq
  simp only [ClusterCache.applyNamespace, String.data_append] at hd
  exact h (String.ext (List.append_cancel_right (List.append_cancel_right hd)))

/-- Helper: looking up a key other than the one just set reads the old store. -/
theorem storeGet_storeSet_ne {α : Type} (store : Store α) (k1 k2 : String) (v : α)
    (h : k1 ≠ k2) : storeGet (storeSet store k1 v) k2 = storeGet store k2 := by
  have hbeq : (k1 == k2) = false := beq_eq_false_iff_ne.mpr h
  simp [storeGet, storeSet, List.find?_cons, hbeq]

/-- Helper: the namespace prefix used by clear is the namespace followed by
the separator. -/
theorem applyNamespace_empty_key (ns : String) :
    ClusterCache.applyNamespace ns "" = ns ++ ":" :=
  String.append_empty _

/-- Helper: merging an empty overrides record changes nothing. -/
theorem mergeOptions_empty (r : RequestOptions) :
    ClusterCacheClient.mergeOptions r {} = r := rfl

/-- Helper: merging an empty partial configuration changes nothing. -/
theorem mergeConfig_empty (c : ClusterCacheClient.ClientConfig) :
    ClusterCacheClient.mergeConfig c {} = c := rfl

/-- Claim C1: on a request that receives no reply, the timeout callback is
claimed to reject with a TimeoutError naming the requestId and the clientId
AND to remove the PendingOperation from the registry at the moment it fires.
The code only performs the rejection: evaluating the embedded timeout
callback on a registered request shows the rejection message does identify
both ids, but the requestId is still registered in the pending-request
registry afterwards, so the cleanup half of the claim fails on the code. -/
theorem C1_timeout_leaves_pending_registered :
    (ClusterCacheClient.failsafeTimeout
        (ClusterCacheClient.registerPending [] ("r1")) ("get") ("r1") ("client-1")).1.contains ("r1")
      = true ∧
    (ClusterCacheClient.failsafeTimeout
        (ClusterCacheClient.registerPending [] ("r1")) ("get") ("r1") ("client-1")).2
      = "Cluster cache get request timed out: request ID r1, client ID client-1." := by
  constructor
  · decide
  · decide

/-- Claim C2 counterexample: a request whose operation is the unrecognized
string incr makes handleRequest end in a thrown TypeError instead of a sent
Reply, because the operation is resolved through getCacheFn before the try
block: the exception does propagate past the dispatch boundary. -/
theorem C2_unknown_operation_escapes :
    ClusterCache.handleRequest ([] : Store String)
        { args := { ns := "n" }, clientId := "c1", operation := "incr",
          requestId := "r1", sourceId := "cluster-cache" }
      = (.threw ("incr is not a recognized cluster cache operation."), []) := by
  decide

/-- Claim C2 amended: handleRequest sends a Reply exactly when the operation
is one of clear, delete, get, set; for those operations any failure of the
chosen handler is caught and becomes a Reply error, while an unrecognized
operation makes the TypeError thrown by getCacheFn escape the dispatch
boundary with no Reply sent. -/
theorem C2_reply_iff_recognized (st : Store String) (req : Request String) :
    (∃ r, (ClusterCache.handleRequest st req).1 = .replied r)
      ↔ (req.operation = "clear" ∨ req.operation = "delete" ∨ req.operation = "get"
          ∨ req.operation = "set") := by
  unfold ClusterCache.handleRequest ClusterCache.getCacheFn
  split_ifs <;> simp [*]

/-- Claim C3: the namespace key codec is claimed injective; evaluating the
codec at the specific pairs named by the claim shows both map to the same
composite key, so the code collides exactly where the claim requires
distinct keys. -/
theorem C3_applyNamespace_collision :
    ClusterCache.applyNamespace ("a") ("b:c") = ClusterCache.applyNamespace ("a:b") ("c") ∧
    (("a" : String), ("b:c" : String)) ≠ (("a:b" : String), ("c" : String)) := by
  decide

/-- Claim C4 counterexample: an entry stored under the namespace a:b (a
different namespace than a) is nevertheless deleted by clear on the
namespace a, because its composite key a:b:c starts with the prefix a
followed by the separator; so clear does not leave every entry stored under
any other namespace unchanged. -/
theorem C4_clear_deletes_other_namespace :
    (("a:b" : String) ≠ ("a" : String)) ∧
    ClusterCache.get { key := some ("c"), ns := "a:b" }
        ((ClusterCache.set { key := some ("c"), ns := "a:b", value := some ("v") }
          ([] : Store String)).1)
      = some ("v") ∧
    ClusterCache.get { key := some ("c"), ns := "a:b" }
        ((ClusterCache.clear { ns := "a" }
          ((ClusterCache.set { key := some ("c"), ns := "a:b", value := some ("v") }
            ([] : Store String)).1)).1)
      = none := by
  decide

/-- Claim C4 amended: clear on a namespace returns the success acknowledgment
OK and deletes exactly the entries whose composite key starts with the
namespace followed by the separator; every entry whose composite key does
not start with that prefix is kept unchanged. Entries stored under a
different namespace are preserved only when their composite key lacks the
prefix, which can fail when the separator occurs inside a namespace. -/
theorem C4_clear_exactly_prefix {α : Type} (ns : String) (store : Store α)
    (e : String × α) :
    (ClusterCache.clear { ns := ns } store).2 = "OK" ∧
    ((e ∈ (ClusterCache.clear { ns := ns } store).1) ↔
      (e ∈ store ∧ strStartsWith e.1 (ns ++ ":") = false)) := by
  constructor
  · rfl
  · simp [ClusterCache.clear, List.mem_filter, applyNamespace_empty_key]

/-- Claim C5: for distinct namespaces n1 and n2 and any key k, starting from
a store with no entry for k under n2, a set of k under n1 followed by a get
of k under n2 misses: the composite keys differ, so the get reads the
untouched part of the store. -/
theorem C5_cross_namespace_get_misses {α : Type} (n1 n2 k : String) (v : α)
    (store : Store α) (hne : n1 ≠ n2)
    (hmiss : storeGet store (ClusterCache.applyNamespace n2 k) = none) :
    ClusterCache.get { key := some k, ns := n2 }
      ((ClusterCache.set { key := some k, ns := n1, value := some v } store).1)
      = none := by
  have hkey := applyNamespace_ne_of_ne n1 n2 k hne
  have hrw : ClusterCache.get { key := some k, ns := n2 }
      ((ClusterCache.set { key := some k, ns := n1, value := some v } store).1)
      = storeGet (storeSet store (ClusterCache.applyNamespace n1 k) v)
          (ClusterCache.applyNamespace n2 k) := rfl
  rw [hrw, storeGet_storeSet_ne store _ _ v hkey]
  exact hmiss

/-- Claim C5 witness: concrete instantiation with namespaces u1 and u2 and
key k on the empty store. -/
theorem C5_witness :
    (("u1" : String) ≠ ("u2" : String)) ∧
    storeGet ([] : Store String) (ClusterCache.applyNamespace ("u2") ("k")) = none ∧
    ClusterCache.get { key := some ("k"), ns := "u2" }
        ((ClusterCache.set { key := some ("k"), ns := "u1", value := some ("v") }
          ([] : Store String)).1)
      = none := by
  refine ⟨by decide, rfl, ?_⟩
  exact C5_cross_namespace_get_misses ("u1") ("u2") ("k") ("v") [] (by decide) rfl

/-- Claim C6 counterexample: with the default configuration, whose
allowOverrides is false, a call supplying overrides does log the warning,
but the returned request args carry no options at all: in particular they do
not carry the configured default request options, contradicting the claim
that the request is made with the configured defaults. -/
theorem C6_rejected_overrides_drop_options :
    ClusterCacheClient.initialDefaultConfig.allowOverrides = false ∧
    (ClusterCacheClient.addRequestOptions ClusterCacheClient.initialDefaultConfig
        ({ key := some ("k"), ns := "n" } : CacheFnArguments String)
        (some { ttl := some 1 })).2.2 = true ∧
    (ClusterCacheClient.addRequestOptions ClusterCacheClient.initialDefaultConfig
        ({ key := some ("k"), ns := "n" } : CacheFnArguments String)
        (some { ttl := some 1 })).1.options = none ∧
    (ClusterCacheClient.addRequestOptions ClusterCacheClient.initialDefaultConfig
        ({ key := some ("k"), ns := "n" } : CacheFnArguments String)
        (some { ttl := some 1 })).1.options
      ≠ some ClusterCacheClient.initialDefaultConfig.requestOptions := by
  decide

/-- Claim C6 amended: when the client is not configured to allow overrides
and overrides are supplied, the call logs the warning and proceeds without
failing, returning the args unchanged and the configuration untouched: no
options field is attached to the request, so neither the overrides nor the
configured default request options are sent. -/
theorem C6_warn_and_args_unchanged {α : Type}
    (config : ClusterCacheClient.ClientConfig) (args : CacheFnArguments α)
    (o : Overrides) (h : config.allowOverrides = false) :
    ClusterCacheClient.addRequestOptions config args (some o)
      = (args, config, true) := by
  simp [ClusterCacheClient.addRequestOptions, h]

/-- Claim C6 witness: concrete instantiation at the default configuration. -/
theorem C6_witness :
    ClusterCacheClient.initialDefaultConfig.allowOverrides = false ∧
    ClusterCacheClient.addRequestOptions ClusterCacheClient.initialDefaultConfig
        ({ ns := "n" } : CacheFnArguments String) (some { ttl := some 1 })
      = ({ ns := "n" }, ClusterCacheClient.initialDefaultConfig, true) :=
  ⟨rfl, C6_warn_and_args_unchanged ClusterCacheClient.initialDefaultConfig
    { ns := "n" } { ttl := some 1 } rfl⟩

/-- Claim C7 counterexample: with allowOverrides true, a call supplying a ttl
override of 7 leaves the configuration with requestOptions.ttl equal to 7
after the call, while the configured value before the call was 300000: the
configured requestOptions are mutated by the call, not unchanged. -/
theorem C7_overrides_mutate_config :
    (ClusterCacheClient.addRequestOptions
        { ClusterCacheClient.initialDefaultConfig with allowOverrides := true }
        ({ key := some ("k"), ns := "n" } : CacheFnArguments String)
        (some { ttl := some 7 })).2.1.requestOptions.ttl = 7 ∧
    ({ ClusterCacheClient.initialDefaultConfig with allowOverrides := true }
        : ClusterCacheClient.ClientConfig).requestOptions.ttl = 300000 := by
  decide

/-- Claim C7 amended: with allowOverrides true, the overrides are applied to
the call, but lodash merge writes them into the configured requestOptions in
place, so the configuration is permanently changed and a subsequent call
made without overrides sends the earlier merged options, not the originally
configured default request options. -/
theorem C7_overrides_persist_into_config {α : Type}
    (config : ClusterCacheClient.ClientConfig) (args args2 : CacheFnArguments α)
    (o : Overrides) (h : config.allowOverrides = true) :
    ((ClusterCacheClient.addRequestOptions config args (some o)).1.options
        = some (ClusterCacheClient.mergeOptions config.requestOptions o)) ∧
    ((ClusterCacheClient.addRequestOptions config args (some o)).2.1.requestOptions
        = ClusterCacheClient.mergeOptions config.requestOptions o) ∧
    ((ClusterCacheClient.addRequestOptions
          (ClusterCacheClient.addRequestOptions config args (some o)).2.1
          args2 none).1.options
        = some (ClusterCacheClient.mergeOptions config.requestOptions o)) := by
  simp [ClusterCacheClient.addRequestOptions, h, mergeOptions_empty]

/-- Claim C7 witness: concrete instantiation at the default configuration
with allowOverrides switched on and a ttl override of 7. -/
theorem C7_witness :
    ({ ClusterCacheClient.initialDefaultConfig with allowOverrides := true }
        : ClusterCacheClient.ClientConfig).allowOverrides = true ∧
    ((ClusterCacheClient.addRequestOptions
        { ClusterCacheClient.initialDefaultConfig with allowOverrides := true }
        ({ ns := "n" } : CacheFnArguments String) (some { ttl := some 7 })).1.options
      = some (ClusterCacheClient.mergeOptions
          ({ ClusterCacheClient.initialDefaultConfig with
              allowOverrides := true } : ClusterCacheClient.ClientConfig).requestOptions
          { ttl := some 7 })) ∧
    ((ClusterCacheClient.addRequestOptions
        { ClusterCacheClient.initialDefaultConfig with allowOverrides := true }
        ({ ns := "n" } : CacheFnArguments String) (some { ttl := some 7 })).2.1.requestOptions
      = ClusterCacheClient.mergeOptions
          ({ ClusterCacheClient.initialDefaultConfig with
              allowOverrides := true } : ClusterCacheClient.ClientConfig).requestOptions
          { ttl := some 7 }) ∧
    ((ClusterCacheClient.addRequestOptions
        (ClusterCacheClient.addRequestOptions
          { ClusterCacheClient.initialDefaultConfig with allowOverrides := true }
          ({ ns := "n" } : CacheFnArguments String) (some { ttl := some 7 })).2.1
        ({ ns := "n2" } : CacheFnArguments String) none).1.options
      = some (ClusterCacheClient.mergeOptions
          ({ ClusterCacheClient.initialDefaultConfig with
              allowOverrides := true } : ClusterCacheClient.ClientConfig).requestOptions
          { ttl := some 7 })) := by
  refine ⟨rfl, ?_⟩
  exact C7_overrides_persist_into_config
    { ClusterCacheClient.initialDefaultConfig with allowOverrides := true }
    { ns := "n" } { ns := "n2" } { ttl := some 7 } rfl

/-- Claim C8: a second construction of the coordinator, in any role and with
any configuration, returns the existing instance with its options and cache
store untouched; a first successful construction on the primary process
creates the instance carrying exactly the supplied options and an empty
cache. -/
theorem C8_second_construction_is_noop {α : Type}
    (opts1 opts2 : ClusterCache.LRUOptions) (b : Bool)
    (st : ClusterCache.CoordinatorState α) :
    ClusterCache.clusterCacheCtor (some st) b opts2 = (.ok st, some st) ∧
    ∃ st1 : ClusterCache.CoordinatorState α,
      ClusterCache.clusterCacheCtor none true opts1 = (.ok st1, some st1) ∧
      st1.options = opts1 ∧ st1.cache = [] :=
  ⟨rfl, ⟨{ options := opts1, cache := [] }, rfl, rfl, rfl⟩⟩

/-- Claim C9: a first construction of the coordinator on a non-primary
process throws the role-violation error and leaves the singleton slot empty,
and a construction of the client on the primary process throws the
role-violation error and leaves the static state untouched. -/
theorem C9_role_violations {α : Type} (opts : ClusterCache.LRUOptions)
    (s : ClusterCacheClient.ClientStatic) (cfg : ClusterCacheClient.ConfigOverrides)
    (id : String) :
    ClusterCache.clusterCacheCtor (none : Option (ClusterCache.CoordinatorState α)) false opts
      = (.error ("A shared cache may only be initialized on the primary process."), none) ∧
    ClusterCacheClient.clientCtor s true id cfg
      = (.error ("Cluster cache client may not be initialized in the primary process."), s) :=
  ⟨rfl, rfl⟩

/-- Claim C10: constructing a client with a configuration object permanently
mutates the class-level static defaultConfig into the deep merge of the
previous defaults with that configuration, the constructed client aliases
that merged record, and a client constructed later with an omitted
configuration observes the earlier merged settings rather than the original
defaults. -/
theorem C10_ctor_mutates_static_defaults (s : ClusterCacheClient.ClientStatic)
    (c : ClusterCacheClient.ConfigOverrides) (id1 id2 : String) :
    ∃ st1 : ClusterCacheClient.ClientState,
      ClusterCacheClient.clientCtor s false id1 c
        = (.ok st1, { defaultConfig := ClusterCacheClient.mergeConfig s.defaultConfig c }) ∧
      st1.config = ClusterCacheClient.mergeConfig s.defaultConfig c ∧
      (∃ st2 : ClusterCacheClient.ClientState,
        (ClusterCacheClient.clientCtor
            { defaultConfig := ClusterCacheClient.mergeConfig s.defaultConfig c }
            false id2 {}).1
          = .ok st2 ∧
        st2.config = ClusterCacheClient.mergeConfig s.defaultConfig c) ∧
      ∀ c2 : ClusterCacheClient.ConfigOverrides,
        ∃ st2' : ClusterCacheClient.ClientState,
          (ClusterCacheClient.clientCtor
              { defaultConfig := ClusterCacheClient.mergeConfig s.defaultConfig c }
              false id2 c2).1
            = .ok st2' ∧
          st2'.config = ClusterCacheClient.mergeConfig
            (ClusterCacheClient.mergeConfig s.defaultConfig c) c2 :=
  ⟨_, rfl, rfl, ⟨_, rfl, mergeConfig_empty _⟩, fun _ => ⟨_, rfl, rfl⟩⟩
